import Mathlib

/-!
Shallow embedding of the easy_mcp MCP server (src/easy_mcp/server.py):
the SSE session layer (`MCPSession.send_message`), the JSON-RPC dispatcher
(`MCPServer._handle_jsonrpc_request`), the HTTP request parsing in
`MCPServer._handle_client`, and the `/messages/` endpoint handler
(`MCPServer._handle_messages_request`), together with theorems checking the
specification's claims about them.
-/

namespace EasyMCP

/-- JSON values as produced by Python's `json.loads` / consumed by `json.dumps`.
`null` also models Python `None` (so `request.get("id")` on an absent key and
an explicit JSON `null` are both `JSON.null`, exactly as in the Python code).
`obj` models a Python dict: field keys are unique, and lookup is by key.
Numbers are modelled as integers (all numbers appearing in the server's
protocol frames are integers). -/
inductive JSON where
  | null
  | bool (b : Bool)
  | num (n : Int)
  | str (s : String)
  | arr (elems : List JSON)
  | obj (fields : List (String × JSON))

/-- Python `dict.get(k, dflt)` on an object's field list. -/
def dGet (fields : List (String × JSON)) (k : String) (dflt : JSON) : JSON :=
  match fields.lookup k with
  | some v => v
  | none => dflt

/-- A single-quote character, used by Python `repr` of strings. -/
def squote : String := String.singleton (Char.ofNat 39)

/-- Python `", ".join(parts)`: the parts separated by comma-space. -/
def joinComma : List String → String
  | [] => ""
  | [s] => s
  | s :: rest => s ++ ", " ++ joinComma rest

mutual

/-- Python `repr()` of a JSON-shaped value (what `str()` of a dict or list
uses for its elements).  Escaping of special characters inside a string's
`repr` is not modelled (no claim exercises it). -/
def pyRepr : JSON → String
  | .null => "None"
  | .bool true => "True"
  | .bool false => "False"
  | .num n => toString n
  | .str s => squote ++ s ++ squote
  | .arr xs => "[" ++ joinComma (pyReprList xs) ++ "]"
  | .obj kvs => "\x7b" ++ joinComma (pyReprFields kvs) ++ "\x7d"

/-- `repr` of each element of a Python list. -/
def pyReprList : List JSON → List String
  | [] => []
  | x :: xs => pyRepr x :: pyReprList xs

/-- `repr` of each `key: value` entry of a Python dict. -/
def pyReprFields : List (String × JSON) → List String
  | [] => []
  | (k, v) :: kvs => (squote ++ k ++ squote ++ ": " ++ pyRepr v) :: pyReprFields kvs

end

/-- Python `str()` of a JSON-shaped value, as used by f-string interpolation
in the server (`f"Tool not found: {tool_name}"` etc.): a string renders
as itself, everything else as its `repr`. -/
def pyStr : JSON → String
  | .str s => s
  | j => pyRepr j

/-- One registered tool: `register_tool` stores `description`, `input_schema`
and `handler` under the tool's name.  A handler that raises is modelled as
returning `Except.error msg` where `msg` is Python's `str(e)`. -/
structure ToolEntry where
  description : String
  input_schema : JSON
  handler : JSON → Except String JSON

/-- The server's `tool_handlers` dict: tool name to entry, keys unique. -/
abbrev ToolRegistry := List (String × ToolEntry)

/-- `tool_name in self.tool_handlers` / `self.tool_handlers[tool_name]`:
only a string key can be present in the (string-keyed) dict. -/
def lookupTool (tools : ToolRegistry) : JSON → Option ToolEntry
  | .str s => List.lookup s (tools : List (String × ToolEntry))
  | _ => none

/-- `x is None` on a JSON-shaped Python value (Python `None` is `JSON.null`). -/
def JSON.isNull : JSON → Bool
  | .null => true
  | _ => false

/-- Python `==` between a JSON-shaped value and a string literal: true exactly
when the value is that string (a non-string value never equals a `str`). -/
def JSON.eqStr : JSON → String → Bool
  | .str s, t => s = t
  | _, _ => false

/-- Server configuration fields referenced by the dispatcher. -/
structure ServerCfg where
  capabilities : JSON
  server_info : JSON

/-- The default `self.capabilities` object set in `MCPServer.__init__`. -/
def defaultCapabilities : JSON :=
  .obj [("experimental", .obj []),
        ("prompts", .obj [("listChanged", .bool false)]),
        ("resources", .obj [("subscribe", .bool false), ("listChanged", .bool false)]),
        ("tools", .obj [("listChanged", .bool false)])]

/-- The default `self.server_info` set in `MCPServer.__init__`. -/
def defaultServerInfo : JSON :=
  .obj [("name", .str "mcp-server"), ("version", .str "1.0.0")]

/-- `MCPServer._handle_jsonrpc_request`, after `json.loads` succeeded on the
body: takes the decoded request value and returns the list of response objects
passed to `_send_response` (each is delivered to the session's SSE stream as a
`"message"` event).  An empty list means no output frame.  A non-dict request,
or non-dict `params` where the code calls `params.get`, raises
`AttributeError`, which the surrounding `except Exception` swallows with no
response — modelled as returning `[]`. -/
def handle_jsonrpc (cfg : ServerCfg) (tools : ToolRegistry) (request : JSON) :
    List JSON :=
  match request with
  | .obj req =>
    let method := dGet req "method" (.str "")
    let jsonrpc := dGet req "jsonrpc" (.str "2.0")
    let request_id := dGet req "id" .null
    let params := dGet req "params" (.obj [])
    if method.eqStr "initialize" then
      match params with
      | .obj p =>
        let protocol_version := dGet p "protocolVersion" (.str "2024-11-05")
        [.obj [("jsonrpc", jsonrpc), ("id", request_id),
               ("result", .obj [("protocolVersion", protocol_version),
                                ("capabilities", cfg.capabilities),
                                ("serverInfo", cfg.server_info)])]]
      | _ => []
    else if method.eqStr "notifications/initialized" then
      []
    else if method.eqStr "tools/list" then
      let tools' := (tools : List (String × ToolEntry)).map fun nt =>
        JSON.obj [("name", .str nt.1),
                  ("description", .str nt.2.description),
                  ("inputSchema", nt.2.input_schema)]
      [.obj [("jsonrpc", jsonrpc), ("id", request_id),
             ("result", .obj [("tools", .arr tools')])]]
    else if method.eqStr "tools/run" || method.eqStr "tools/call" then
      match params with
      | .obj p =>
        let tool_name := dGet p "name" (.str "")
        let tool_args := dGet p "arguments" (.obj [])
        match lookupTool tools tool_name with
        | some tool =>
          match tool.handler tool_args with
          | .ok result =>
              [.obj [("jsonrpc", jsonrpc), ("id", request_id), ("result", result)]]
          | .error e =>
              [.obj [("jsonrpc", jsonrpc), ("id", request_id),
                     ("error", .obj [("code", .num (-32603)),
                                     ("message", .str ("Tool execution failed: " ++ e))])]]
        | none =>
            [.obj [("jsonrpc", jsonrpc), ("id", request_id),
                   ("error", .obj [("code", .num (-32601)),
                                   ("message", .str ("Tool not found: " ++ pyStr tool_name))])]]
      | _ => []
    else
      if !request_id.isNull then
        [.obj [("jsonrpc", jsonrpc), ("id", request_id),
               ("error", .obj [("code", .num (-32601)),
                               ("message", .str ("Method not found: " ++ pyStr method))])]]
      else []
  | _ => []

/-! ## `json.dumps` (library collaborator used by `send_message`) -/

/-- Lower-case hex digit. -/
def hexDigit (n : Nat) : Char :=
  if n < 10 then Char.ofNat (48 + n) else Char.ofNat (87 + n)

/-- Escape one character as Python `json.dumps` does inside a string literal. -/
def jsonEscChar (c : Char) : String :=
  if c = Char.ofNat 34 then String.mk [Char.ofNat 92, Char.ofNat 34]
  else if c = Char.ofNat 92 then String.mk [Char.ofNat 92, Char.ofNat 92]
  else if c = Char.ofNat 10 then "\\n"
  else if c = Char.ofNat 13 then "\\r"
  else if c = Char.ofNat 9 then "\\t"
  else if c = Char.ofNat 8 then "\\b"
  else if c = Char.ofNat 12 then "\\f"
  else if c.toNat < 32 then
    "\\u00" ++ String.mk [hexDigit (c.toNat / 16), hexDigit (c.toNat % 16)]
  else String.singleton c

/-- The escaped characters of a JSON string literal's content. -/
def escapeChars : List Char → String
  | [] => ""
  | c :: cs => jsonEscChar c ++ escapeChars cs

/-- A JSON string literal: double quotes around the escaped characters. -/
def jsonQuote (s : String) : String :=
  String.singleton (Char.ofNat 34) ++ escapeChars s.data
    ++ String.singleton (Char.ofNat 34)

mutual

/-- Python `json.dumps` with its default separators (`", "` between items,
`": "` between a key and a value), producing single-line JSON text. -/
def dumps : JSON → String
  | .null => "null"
  | .bool true => "true"
  | .bool false => "false"
  | .num n => toString n
  | .str s => jsonQuote s
  | .arr xs => "[" ++ joinComma (dumpsList xs) ++ "]"
  | .obj kvs => "\x7b" ++ joinComma (dumpsFields kvs) ++ "\x7d"

/-- `dumps` of each element of an array. -/
def dumpsList : List JSON → List String
  | [] => []
  | x :: xs => dumps x :: dumpsList xs

/-- `dumps` of each `"key": value` entry of an object. -/
def dumpsFields : List (String × JSON) → List String
  | [] => []
  | (k, v) :: kvs => (jsonQuote k ++ ": " ++ dumps v) :: dumpsFields kvs

end

/-! ## `MCPSession` and `send_message` -/

/-- A Python value passed as the `data` argument of `send_message`.
The server passes a response dict (`ofDict`) or `None` (for pings);
`ofStr s` covers any other payload, represented by its f-string
interpolation `s`. -/
inductive PyData where
  | ofDict (fields : List (String × JSON))
  | ofStr (s : String)
  | pyNone

/-- What `f"data: {data}"` interpolates after the
`if isinstance(data, dict): data = json.dumps(data)` step: a dict is
serialized by `dumps`, a string stands as itself, `None` as `"None"`. -/
def PyData.interp : PyData → String
  | .ofDict d => dumps (.obj d)
  | .ofStr s => s
  | .pyNone => "None"

/-- An active SSE session (`MCPSession.__init__`): the fields the claims
touch.  The socket is modelled by the `writeOk` parameter of `send_message`;
`created_at` and `last_ping` are informational timestamps no claim reads. -/
structure MCPSession where
  id : String
  client_address : String
  is_active : Bool

/-- `MCPSession.send_message(event_type, data)`: builds the SSE frame and
writes it to the client socket.  `now` models
`datetime.now().isoformat()`; `writeOk` models whether `sendall` succeeds
(an exception on write is `writeOk = false`).  Returns the session after the
call (the `except` branch sets `is_active` to `False`), the boolean result,
and the frame text that was encoded and written. -/
def MCPSession.send_message (sess : MCPSession) (event_type : String)
    (data : PyData) (now : String) (writeOk : Bool) :
    MCPSession × Bool × String :=
  let message :=
    if event_type = "ping" then
      ": ping - " ++ now ++ "+00:00\r\n\r\n"
    else
      (if event_type ≠ "message" then "event: " ++ event_type ++ "\r\n" else "")
        ++ "data: " ++ data.interp ++ "\r\n\r\n"
  if writeOk then (sess, true, message)
  else ({ sess with is_active := false }, false, message)

/-- `self.active_sessions`: session id to session, keys unique. -/
abbrev SessionRegistry := List (String × MCPSession)

/-- The registry as seen after an in-place mutation of the session object it
holds under `sid` (Python aliasing: `active_sessions[sid]` and the local
`session` are the same object, so mutating `session.is_active` is visible
through the registry without any registry operation). -/
def registryWith (reg : SessionRegistry) (sid : String) (sess : MCPSession) :
    SessionRegistry :=
  (reg : List (String × MCPSession)).map fun kv =>
    if kv.1 = sid then (kv.1, sess) else kv

/-! ## HTTP request parsing (`MCPServer._handle_client`) -/

/-- Python `str.split(sep, maxsplit)` with a one-character separator:
auxiliary walk over the characters, `n` splits remaining, `acc` the current
piece reversed.  Once no splits remain, the rest (separators included) is
the last piece. -/
def splitMaxAux (sep : Char) : List Char → Nat → List Char → List String
  | [], _, acc => [String.mk acc.reverse]
  | cs, 0, acc => [String.mk (acc.reverse ++ cs)]
  | c :: cs, n + 1, acc =>
    if c = sep then String.mk acc.reverse :: splitMaxAux sep cs n []
    else splitMaxAux sep cs (n + 1) (c :: acc)

/-- Python `s.split(sep, maxsplit)` for a one-character separator. -/
def pySplit (s : String) (sep : Char) (maxsplit : Nat) : List String :=
  splitMaxAux sep s.data maxsplit []

/-- Python `s.split(sep)` without a maxsplit: splitting at most `length`
times is splitting at every occurrence. -/
def pySplitAll (s : String) (sep : Char) : List String :=
  splitMaxAux sep s.data s.data.length []

/-- Python whitespace as stripped by `str.strip()` (ASCII part). -/
def isPySpace (c : Char) : Bool :=
  c = Char.ofNat 32 || c = Char.ofNat 9 || c = Char.ofNat 10 ||
    c = Char.ofNat 13 || c = Char.ofNat 11 || c = Char.ofNat 12

/-- Python `str.strip()`: drop leading and trailing whitespace. -/
def pyStrip (s : String) : String :=
  String.mk (((s.data.dropWhile isPySpace).reverse.dropWhile isPySpace).reverse)

/-- Python `str.lower()` on the ASCII range (header names are ASCII). -/
def pyLower (s : String) : String :=
  String.mk (s.data.map fun c =>
    if 65 ≤ c.toNat ∧ c.toNat ≤ 90 then Char.ofNat (c.toNat + 32) else c)

/-- `lines[0].split(' ', 2)` unpacked into `method, path, version`;
the `except ValueError` branch (fewer than three parts) substitutes the
sentinel triple `("UNKNOWN", "/", "HTTP/1.1")`. -/
def parseRequestLine (line : String) : String × String × String :=
  match pySplit line (Char.ofNat 32) 2 with
  | [m, p, v] => (m, p, v)
  | _ => ("UNKNOWN", "/", "HTTP/1.1")

/-- `line.split(':', 1)`: `some (key, rest)` when the line contains a colon,
`none` when it does not (the `ValueError` case). -/
def splitFirstColon (line : String) : Option (String × String) :=
  match pySplit line (Char.ofNat 58) 1 with
  | [k, v] => some (k, v)
  | _ => none

/-- Python dict assignment `d[k] = v` on an insertion-ordered dict modelled
as an association list: overwrite in place if the key exists, else append. -/
def dictInsert (d : List (String × String)) (k v : String) :
    List (String × String) :=
  if (d.lookup k).isSome then
    d.map fun kv => if kv.1 = k then (k, v) else kv
  else d ++ [(k, v)]

/-- The header-parsing loop of `_handle_client`: walk the lines after the
request line, stop at the first empty line, skip lines without a colon
(`except ValueError: continue`), store `key.strip().lower() -> value.strip()`
for the rest. -/
def parseHeadersAux (acc : List (String × String)) :
    List String → List (String × String)
  | [] => acc
  | line :: rest =>
    if line = "" then acc
    else
      match splitFirstColon line with
      | some kv =>
          parseHeadersAux (dictInsert acc (pyLower (pyStrip kv.1)) (pyStrip kv.2)) rest
      | none => parseHeadersAux acc rest

/-- The headers dict built by `_handle_client` from the lines after the
request line. -/
def parseHeaders (lines : List String) : List (String × String) :=
  parseHeadersAux [] lines

/-! ## Query-string parsing (`urllib.parse.parse_qs`, library collaborator) -/

/-- Value of a hexadecimal digit character, if it is one. -/
def hexVal (c : Char) : Option Nat :=
  if 48 ≤ c.toNat ∧ c.toNat ≤ 57 then some (c.toNat - 48)
  else if 97 ≤ c.toNat ∧ c.toNat ≤ 102 then some (c.toNat - 87)
  else if 65 ≤ c.toNat ∧ c.toNat ≤ 70 then some (c.toNat - 55)
  else none

/-- Percent-decoding as in `urllib.parse.unquote`: a `%` followed by two hex
digits decodes to that byte's character, anything else passes through.
(Multi-byte UTF-8 percent sequences decode here byte by byte; the model is
exact for the ASCII session ids and keys the server uses.) -/
def pctDecodeAux : List Char → List Char
  | [] => []
  | c :: a :: b :: rest =>
    if c = Char.ofNat 37 then
      match hexVal a, hexVal b with
      | some x, some y => Char.ofNat (16 * x + y) :: pctDecodeAux rest
      | _, _ => c :: pctDecodeAux (a :: b :: rest)
    else c :: pctDecodeAux (a :: b :: rest)
  | c :: cs => c :: pctDecodeAux cs

/-- `urllib.parse.unquote_plus`: `+` becomes a space, then percent-decode. -/
def unquote_plus (s : String) : String :=
  String.mk (pctDecodeAux (s.data.map fun c =>
    if c = Char.ofNat 43 then Char.ofNat 32 else c))

/-- `urllib.parse.parse_qsl(qs)` with its defaults (`keep_blank_values=False`,
`strict_parsing=False`, separator `&`): split on `&`, drop empty fields,
drop fields without `=` and fields with an empty value, percent-decode
names and values. -/
def parse_qsl (qs : String) : List (String × String) :=
  (pySplitAll qs (Char.ofNat 38)).filterMap fun pair =>
    if pair = "" then none
    else
      match pySplit pair (Char.ofNat 61) 1 with
      | [n, v] => if v = "" then none else some (unquote_plus n, unquote_plus v)
      | _ => none

/-- `urllib.parse.parse_qs(qs).get(key, [])`: the values listed under `key`,
in encounter order (parse_qs groups parse_qsl's pairs by name). -/
def qsValues (qs : String) (key : String) : List String :=
  (parse_qsl qs).filterMap fun nv => if nv.1 = key then some nv.2 else none

/-! ## The `/messages/` endpoint (`MCPServer._handle_messages_request`) -/

/-- Python `path.find("?")`: index of the first occurrence, `none` for the
`-1` case. -/
def strFindChar (s : String) (c : Char) : Option Nat :=
  s.data.indexOf? c

/-- The fixed `202 Accepted` response written for an accepted message. -/
def response202 : String :=
  "HTTP/1.1 202 Accepted\r\nContent-Type: text/plain\r\nContent-Length: 0\r\nConnection: close\r\n\r\n"

/-- The fixed `404 Not Found` response for an unknown session. -/
def response404 : String :=
  "HTTP/1.1 404 Not Found\r\nContent-Type: text/plain\r\nContent-Length: 13\r\nConnection: close\r\n\r\nInvalid session"

/-- The fixed `400 Bad Request` response for a missing session id. -/
def response400 : String :=
  "HTTP/1.1 400 Bad Request\r\nContent-Type: text/plain\r\nContent-Length: 22\r\nConnection: close\r\n\r\nMissing session_id param"

/-- `MCPServer._handle_messages_request(path, headers, body)`: returns the
HTTP response written back on the POST connection, and `some (sid, body)`
when the body is handed to `_handle_jsonrpc_request` for session `sid`
(which happens exactly when the session is known and the `content-type`
header equals `application/json`); the dispatcher's own output goes to the
session's SSE stream, not to this response. -/
def handle_messages_request (sessions : SessionRegistry) (path : String)
    (headers : List (String × String)) (body : String) :
    String × Option (String × String) :=
  match strFindChar path (Char.ofNat 63) with
  | some query_start =>
    let query_string := String.mk (path.data.drop (query_start + 1))
    let session_ids := qsValues query_string "session_id"
    match session_ids with
    | [] => (response404, none)
    | sid :: _ =>
      if (List.lookup sid (sessions : List (String × MCPSession))).isSome then
        if headers.lookup "content-type" = some "application/json" then
          (response202, some (sid, body))
        else
          (response202, none)
      else (response404, none)
  | none => (response400, none)

/-- Whether `p` begins the character list `l`. -/
def beginsWith : List Char → List Char → Bool
  | [], _ => true
  | _ :: _, [] => false
  | p :: ps, c :: cs => p = c && beginsWith ps cs

/-- Split a response's characters at the first `\r\n\r\n` header terminator:
`(headerChars, bodyChars)`; a response with no terminator has an empty body. -/
def splitHeadersBody : List Char → List Char × List Char
  | [] => ([], [])
  | c :: cs =>
    if beginsWith [Char.ofNat 13, Char.ofNat 10, Char.ofNat 13, Char.ofNat 10] (c :: cs) then
      ([], cs.drop 3)
    else
      let hb := splitHeadersBody cs
      (c :: hb.1, hb.2)

/-- Split a character list into the lines separated by `\r\n`. -/
def splitCRLFAux : List Char → List Char → List String
  | [], acc => [String.mk acc.reverse]
  | [c], acc => [String.mk (c :: acc).reverse]
  | c :: d :: rest, acc =>
    if c = Char.ofNat 13 && d = Char.ofNat 10 then
      String.mk acc.reverse :: splitCRLFAux rest []
    else
      splitCRLFAux (d :: rest) (c :: acc)

/-- The status line of an HTTP response (everything before the first CRLF). -/
def statusLine (resp : String) : String :=
  String.mk (resp.data.takeWhile fun c => c != Char.ofNat 13)

/-- The body of an HTTP response: everything after the first `\r\n\r\n`. -/
def httpBody (resp : String) : String :=
  String.mk (splitHeadersBody resp.data).2

/-- Parse a digit string as a number (for reading a Content-Length value). -/
def digitsToNat? (cs : List Char) : Option Nat :=
  if cs = [] then none
  else if cs.all (fun c => 48 ≤ c.toNat && c.toNat ≤ 57) then
    some (cs.foldl (fun n c => 10 * n + (c.toNat - 48)) 0)
  else none

/-- The value of the first `Content-Length: ` header among some lines. -/
def findContentLength : List String → Option Nat
  | [] => none
  | line :: rest =>
    if beginsWith ("Content-Length: ".data) line.data then
      digitsToNat? (line.data.drop 16)
    else findContentLength rest

/-- The `Content-Length` a response's headers declare, if any. -/
def declaredContentLength (resp : String) : Option Nat :=
  findContentLength (splitCRLFAux (splitHeadersBody resp.data).1 [])

/-- The UTF-8 byte count of a string (its encoded length on the wire). -/
def byteLen (s : String) : Nat :=
  s.data.foldl (fun n c => n + c.utf8Size) 0

/-- A string is single-line when it contains neither LF nor CR — the
property that lets it sit inside one SSE `data:` line without ending the
frame early. -/
def lineSafe (s : String) : Prop :=
  Char.ofNat 10 ∉ s.data ∧ Char.ofNat 13 ∉ s.data

/-- Single-line-ness of a concrete string is decidable. -/
instance lineSafeDecidable (s : String) : Decidable (lineSafe s) :=
  inferInstanceAs (Decidable (Char.ofNat 10 ∉ s.data ∧ Char.ofNat 13 ∉ s.data))

/-! ## Helper lemmas -/

/-- Concatenation preserves single-line-ness. -/
theorem lineSafe_append {a b : String} (ha : lineSafe a) (hb : lineSafe b) :
    lineSafe (a ++ b) := by
  obtain ⟨ha1, ha2⟩ := ha
  obtain ⟨hb1, hb2⟩ := hb
  constructor
  · rw [String.data_append]
    intro h
    rcases List.mem_append.1 h with h | h
    · exact ha1 h
    · exact hb1 h
  · rw [String.data_append]
    intro h
    rcases List.mem_append.1 h with h | h
    · exact ha2 h
    · exact hb2 h

/-- `Nat.digitChar` never yields a line terminator. -/
theorem digitChar_safe (d : Nat) :
    Nat.digitChar d ≠ Char.ofNat 10 ∧ Nat.digitChar d ≠ Char.ofNat 13 := by
  by_cases h : d < 16
  · interval_cases d <;> exact ⟨by decide, by decide⟩
  · have hstar : Nat.digitChar d = Char.ofNat 42 := by
      unfold Nat.digitChar
      repeat rw [if_neg (by omega)]
    rw [hstar]
    exact ⟨by decide, by decide⟩

/-- Every character `Nat.toDigitsCore` emits is a digit character or comes
from the accumulator. -/
theorem toDigitsCore_mem (b : Nat) :
    ∀ (fuel n : Nat) (ds : List Char) (c : Char),
      c ∈ Nat.toDigitsCore b fuel n ds → (∃ d, c = Nat.digitChar d) ∨ c ∈ ds := by
  intro fuel
  induction fuel with
  | zero => exact fun n ds c h => Or.inr h
  | succ f ih =>
    intro n ds c h
    rw [Nat.toDigitsCore] at h
    by_cases hz : n / b = 0
    · rw [if_pos hz] at h
      rcases List.mem_cons.1 h with h | h
      · exact Or.inl ⟨n % b, h⟩
      · exact Or.inr h
    · rw [if_neg hz] at h
      rcases ih (n / b) (Nat.digitChar (n % b) :: ds) c h with h | h
      · exact Or.inl h
      · rcases List.mem_cons.1 h with h | h
        · exact Or.inl ⟨n % b, h⟩
        · exact Or.inr h

/-- The decimal representation of a natural number is single-line. -/
theorem natRepr_lineSafe (n : Nat) : lineSafe (Nat.repr n) := by
  constructor
  · intro hmem
    rcases toDigitsCore_mem 10 (n + 1) n [] _ hmem with ⟨d, hd⟩ | hin
    · exact (digitChar_safe d).1 hd.symm
    · exact absurd hin (List.not_mem_nil _)
  · intro hmem
    rcases toDigitsCore_mem 10 (n + 1) n [] _ hmem with ⟨d, hd⟩ | hin
    · exact (digitChar_safe d).2 hd.symm
    · exact absurd hin (List.not_mem_nil _)

/-- The decimal representation of an integer is single-line. -/
theorem intToString_lineSafe (n : Int) : lineSafe (toString n) := by
  cases n with
  | ofNat m => exact natRepr_lineSafe m
  | negSucc m => exact lineSafe_append (by decide) (natRepr_lineSafe (m + 1))

/-- `hexDigit` of a value below 16 is never a line terminator. -/
theorem hexDigit_safe :
    ∀ n < 16, hexDigit n ≠ Char.ofNat 10 ∧ hexDigit n ≠ Char.ofNat 13 := by
  decide

/-- `json.dumps` string escaping never emits a literal line terminator (LF
and CR themselves escape to the two-character sequences backslash-n,
backslash-r). -/
theorem jsonEscChar_lineSafe (c : Char) : lineSafe (jsonEscChar c) := by
  unfold jsonEscChar
  split_ifs with h1 h2 h3 h4 h5 h6 h7 h8
  · decide
  · decide
  · decide
  · decide
  · decide
  · decide
  · decide
  · refine lineSafe_append (by decide) ?_
    have ha := hexDigit_safe (c.toNat / 16) (by omega)
    have hb := hexDigit_safe (c.toNat % 16) (Nat.mod_lt _ (by omega))
    constructor
    · intro hmem
      simp only [List.mem_cons, List.not_mem_nil, or_false] at hmem
      rcases hmem with h | h
      · exact ha.1 h.symm
      · exact hb.1 h.symm
    · intro hmem
      simp only [List.mem_cons, List.not_mem_nil, or_false] at hmem
      rcases hmem with h | h
      · exact ha.2 h.symm
      · exact hb.2 h.symm
  · constructor
    · intro hmem
      rw [show (String.singleton c).data = [c] from rfl, List.mem_singleton] at hmem
      exact h3 hmem.symm
    · intro hmem
      rw [show (String.singleton c).data = [c] from rfl, List.mem_singleton] at hmem
      exact h4 hmem.symm

/-- Escaped string content is single-line. -/
theorem escapeChars_lineSafe : ∀ cs : List Char, lineSafe (escapeChars cs)
  | [] => by decide
  | c :: cs => lineSafe_append (jsonEscChar_lineSafe c) (escapeChars_lineSafe cs)

/-- A JSON string literal is single-line. -/
theorem jsonQuote_lineSafe (s : String) : lineSafe (jsonQuote s) :=
  lineSafe_append
    (lineSafe_append (by decide) (escapeChars_lineSafe s.data)) (by decide)

/-- Joining single-line parts with comma-space stays single-line. -/
theorem joinComma_lineSafe :
    ∀ parts : List String, (∀ s ∈ parts, lineSafe s) → lineSafe (joinComma parts)
  | [], _ => by decide
  | [s], h => h s (by simp)
  | s :: t :: rest, h =>
    lineSafe_append
      (lineSafe_append (h s (by simp)) (by decide))
      (joinComma_lineSafe (t :: rest) fun x hx => h x (by simp [List.mem_cons.1 hx]))

mutual

/-- `json.dumps` output is single-line JSON: it contains no LF and no CR. -/
theorem dumps_lineSafe : (j : JSON) → lineSafe (dumps j)
  | .null => by decide
  | .bool true => by decide
  | .bool false => by decide
  | .num n => intToString_lineSafe n
  | .str s => jsonQuote_lineSafe s
  | .arr xs =>
      lineSafe_append
        (lineSafe_append (by decide) (joinComma_lineSafe _ (dumpsList_lineSafe xs)))
        (by decide)
  | .obj kvs =>
      lineSafe_append
        (lineSafe_append (by decide) (joinComma_lineSafe _ (dumpsFields_lineSafe kvs)))
        (by decide)

/-- Every serialized array element is single-line. -/
theorem dumpsList_lineSafe : (xs : List JSON) → ∀ s ∈ dumpsList xs, lineSafe s
  | [], _, hs => absurd hs (List.not_mem_nil _)
  | x :: xs, s, hs => by
    rcases List.mem_cons.1 hs with h | h
    · exact h ▸ dumps_lineSafe x
    · exact dumpsList_lineSafe xs s h

/-- Every serialized object entry is single-line. -/
theorem dumpsFields_lineSafe :
    (kvs : List (String × JSON)) → ∀ s ∈ dumpsFields kvs, lineSafe s
  | [], _, hs => absurd hs (List.not_mem_nil _)
  | (k, v) :: kvs, s, hs => by
    rcases List.mem_cons.1 hs with h | h
    · exact h ▸
        lineSafe_append (lineSafe_append (jsonQuote_lineSafe k) (by decide))
          (dumps_lineSafe v)
    · exact dumpsFields_lineSafe kvs s h

end

/-- Overwriting the session stored under a key leaves the registry's key
sequence unchanged. -/
theorem registryWith_keys (reg : SessionRegistry) (sid : String)
    (s : MCPSession) :
    (registryWith reg sid s).map Prod.fst = reg.map Prod.fst := by
  induction reg with
  | nil => rfl
  | cons kv t ih =>
    simp only [registryWith, List.map_cons] at ih ⊢
    by_cases h : kv.1 = sid <;> simp [h, ih]

/-- After overwriting the session stored under a key that is present, that
key looks up the new session. -/
theorem lookup_registryWith (reg : SessionRegistry) (sid : String)
    (s : MCPSession) (h : (List.lookup sid reg).isSome) :
    List.lookup sid (registryWith reg sid s) = some s := by
  induction reg with
  | nil => simp [List.lookup] at h
  | cons kv t ih =>
    obtain ⟨k, v⟩ := kv
    simp only [registryWith, List.map_cons]
    by_cases hk : k = sid
    · subst hk
      rw [if_pos rfl]
      simp [List.lookup]
    · rw [if_neg hk]
      have hbeq : (sid == k) = false := by
        simp only [beq_eq_false_iff_ne, ne_eq]
        exact fun he => hk he.symm
      simp only [List.lookup, hbeq] at h ⊢
      exact ih h

/-- Splitting yields `min maxsplit (number of separators) + 1` pieces. -/
theorem splitMaxAux_length (sep : Char) :
    ∀ (cs : List Char) (n : Nat) (acc : List Char),
      (splitMaxAux sep cs n acc).length = min n (cs.count sep) + 1 := by
  intro cs
  induction cs with
  | nil => intro n acc; simp [splitMaxAux]
  | cons c cs ih =>
    intro n acc
    cases n with
    | zero => rw [splitMaxAux] <;> simp
    | succ m =>
      by_cases h : c = sep
      · subst h
        rw [splitMaxAux, if_pos rfl]
        simp only [List.length_cons, ih, List.count_cons_self]
        omega
      · rw [splitMaxAux, if_neg h, ih]
        have hc : (c :: cs).count sep = cs.count sep := by
          rw [List.count_cons]
          rw [show (c == sep) = false from beq_eq_false_iff_ne.2 h]
          simp
        rw [hc]

/-- Splitting a list that does not contain the separator yields one piece. -/
theorem splitMaxAux_no_sep (sep : Char) :
    ∀ (cs : List Char) (n : Nat) (acc : List Char), sep ∉ cs →
      splitMaxAux sep cs n acc = [String.mk (acc.reverse ++ cs)] := by
  intro cs
  induction cs with
  | nil => intro n acc _; simp [splitMaxAux]
  | cons c cs ih =>
    intro n acc h
    cases n with
    | zero =>
      rw [splitMaxAux]
      simp
    | succ m =>
      have hcne : ¬ c = sep := by
        intro hc
        subst hc
        exact h (List.mem_cons_self c cs)
      rw [splitMaxAux, if_neg hcne,
        ih _ _ (fun hm => h (List.mem_cons_of_mem c hm))]
      simp

/-- A line with no colon fails to split into a key and a value. -/
theorem splitFirstColon_none (l : String) (h : Char.ofNat 58 ∉ l.data) :
    splitFirstColon l = none := by
  unfold splitFirstColon pySplit
  rw [splitMaxAux_no_sep _ _ _ _ h]

/-- A request line with fewer than two spaces does not split into three
parts, so the `except ValueError` branch substitutes the sentinel triple. -/
theorem parseRequestLine_sentinel (line : String)
    (h : line.data.count (Char.ofNat 32) < 2) :
    parseRequestLine line = ("UNKNOWN", "/", "HTTP/1.1") := by
  unfold parseRequestLine pySplit
  have hlen := splitMaxAux_length (Char.ofNat 32) line.data 2 []
  rw [Nat.min_eq_right (by omega)] at hlen
  rcases hsp : splitMaxAux (Char.ofNat 32) line.data 2 [] with _ | ⟨a, _ | ⟨b, _ | ⟨c, rest⟩⟩⟩
  · rfl
  · rfl
  · rfl
  · rw [hsp] at hlen
    simp only [List.length_cons] at hlen
    omega

/-! ## Claim theorems -/

/-- C10: the fixed responses of `_handle_messages_request` declare a
`Content-Length` that differs from the actual body length: the 404 response
declares 13 bytes but its body `"Invalid session"` is 15 bytes, and the 400
response declares 22 bytes but its body `"Missing session_id param"` is 24
bytes (and these are exactly the responses the handler produces). -/
theorem messages_content_length_mismatch :
    (handle_messages_request [] "/messages/?session_id=zzz" [] "").1 = response404 ∧
    declaredContentLength response404 = some 13 ∧
    httpBody response404 = "Invalid session" ∧
    byteLen (httpBody response404) = 15 ∧
    (handle_messages_request [] "/messages/" [] "").1 = response400 ∧
    declaredContentLength response400 = some 22 ∧
    httpBody response400 = "Missing session_id param" ∧
    byteLen (httpBody response400) = 24 :=
  ⟨rfl, rfl, rfl, rfl, rfl, rfl, rfl, rfl⟩

/-- C2 counterexample: a POST to `/messages/?foo=bar` has a query string with
no `session_id` parameter, yet the handler answers 404 Not Found, not 400 as
the claim states. -/
theorem messages_query_without_session_id_is_404 :
    statusLine (handle_messages_request [] "/messages/?foo=bar" [] "").1 =
      "HTTP/1.1 404 Not Found" := rfl

/-- C2 (amended): the handler responds 400 Bad Request exactly when the path
contains no `?` at all; when a query string is present but yields no
`session_id` values, it responds 404 Not Found instead. -/
theorem messages_missing_session_id_responses (sessions : SessionRegistry)
    (path : String) (headers : List (String × String)) (body : String) :
    (strFindChar path (Char.ofNat 63) = none →
      (handle_messages_request sessions path headers body).1 = response400) ∧
    (∀ i, strFindChar path (Char.ofNat 63) = some i →
      qsValues (String.mk (path.data.drop (i + 1))) "session_id" = [] →
      (handle_messages_request sessions path headers body).1 = response404) := by
  constructor
  · intro h
    simp [handle_messages_request, h]
  · intro i h hq
    simp [handle_messages_request, h, hq]

/-- Witness for C2 (amended): both branches at concrete paths. -/
theorem messages_missing_session_id_responses_witness :
    (handle_messages_request [] "/messages/" [] "").1 = response400 ∧
    (handle_messages_request [] "/messages/?foo=bar" [] "").1 = response404 :=
  ⟨(messages_missing_session_id_responses [] "/messages/" [] "").1 rfl,
   (messages_missing_session_id_responses [] "/messages/?foo=bar" [] "").2 10 rfl rfl⟩

/-- C9: a `send_message` whose write fails returns `False`, sets the
session's `is_active` flag to `False`, and leaves the session registry's
keys unchanged — the session's entry is still present (holding the
now-inactive session object), not removed. -/
theorem send_failure_marks_inactive_keeps_registry (reg : SessionRegistry)
    (sid : String) (sess : MCPSession)
    (h : List.lookup sid reg = some sess)
    (event_type : String) (data : PyData) (now : String) :
    (sess.send_message event_type data now false).2.1 = false ∧
    (sess.send_message event_type data now false).1.is_active = false ∧
    (registryWith reg sid (sess.send_message event_type data now false).1).map Prod.fst
      = reg.map Prod.fst ∧
    List.lookup sid (registryWith reg sid (sess.send_message event_type data now false).1)
      = some (sess.send_message event_type data now false).1 := by
  refine ⟨?_, ?_, registryWith_keys .., lookup_registryWith _ _ _ (by simp [h])⟩
  · simp [MCPSession.send_message]
  · simp [MCPSession.send_message]

/-- Witness for C9 at a concrete one-session registry. -/
theorem send_failure_marks_inactive_keeps_registry_witness :
    List.lookup "s1" [("s1", (⟨"s1", "addr", true⟩ : MCPSession))]
      = some (⟨"s1", "addr", true⟩ : MCPSession) ∧
    ((⟨"s1", "addr", true⟩ : MCPSession).send_message "message" (.ofStr "x") "t" false).2.1
      = false :=
  ⟨rfl,
   (send_failure_marks_inactive_keeps_registry
      [("s1", ⟨"s1", "addr", true⟩)] "s1" ⟨"s1", "addr", true⟩ rfl
      "message" (.ofStr "x") "t").1⟩

/-- C1 counterexample: an `initialize` request with no `id` field
(notification shape) still produces an output frame — the full `initialize`
response, carrying `id` null — because only the unknown-method branch of the
dispatcher checks `request_id is not None`. -/
theorem initialize_without_id_still_responds :
    handle_jsonrpc ⟨defaultCapabilities, defaultServerInfo⟩ []
      (.obj [("jsonrpc", .str "2.0"), ("method", .str "initialize")]) =
    [.obj [("jsonrpc", .str "2.0"), ("id", .null),
           ("result", .obj [("protocolVersion", .str "2024-11-05"),
                            ("capabilities", defaultCapabilities),
                            ("serverInfo", defaultServerInfo)])]] := rfl

/-- C1 (amended): a request with `id` absent is guaranteed to produce no
output frame when its method is `notifications/initialized`, and when its
method is not one of the five recognized ones; for the other recognized
methods the original claim's "never produces any output frame" fails — an
id-less `initialize` request can still respond (with `id` null), as the
counterexample shows. -/
theorem notification_shaped_requests (cfg : ServerCfg) (tools : ToolRegistry)
    (req : List (String × JSON)) :
    (dGet req "method" (.str "") = .str "notifications/initialized" →
      handle_jsonrpc cfg tools (.obj req) = []) ∧
    ((dGet req "method" (.str "")).eqStr "initialize" = false →
     (dGet req "method" (.str "")).eqStr "notifications/initialized" = false →
     (dGet req "method" (.str "")).eqStr "tools/list" = false →
     (dGet req "method" (.str "")).eqStr "tools/run" = false →
     (dGet req "method" (.str "")).eqStr "tools/call" = false →
     dGet req "id" .null = .null →
     handle_jsonrpc cfg tools (.obj req) = []) := by
  constructor
  · intro hm
    simp [handle_jsonrpc, hm, JSON.eqStr]
  · intro h1 h2 h3 h4 h5 hid
    simp [handle_jsonrpc, h1, h2, h3, h4, h5, hid, JSON.isNull]

/-- Witness for C1 (amended): the no-output branches at concrete requests. -/
theorem notification_shaped_requests_witness :
    handle_jsonrpc ⟨defaultCapabilities, defaultServerInfo⟩ []
      (.obj [("method", .str "notifications/initialized")]) = [] ∧
    handle_jsonrpc ⟨defaultCapabilities, defaultServerInfo⟩ []
      (.obj [("method", .str "no/such/method")]) = [] :=
  ⟨(notification_shaped_requests _ _ _).1 rfl,
   (notification_shaped_requests _ _ _).2 rfl rfl rfl rfl rfl rfl⟩

/-- C3: a `tools/call` (or `tools/run`) request naming a registered tool
whose handler returns a value produces exactly one response frame whose
`result` field is the handler's return value, verbatim.  (The dispatcher
responds whether or not an `id` is present, so the claim's "with an id"
restriction is subsumed.) -/
theorem tools_call_result_is_handler_value (cfg : ServerCfg)
    (tools : ToolRegistry) (req p : List (String × JSON))
    (tool : ToolEntry) (v : JSON)
    (hm : dGet req "method" (.str "") = .str "tools/call" ∨
          dGet req "method" (.str "") = .str "tools/run")
    (hp : dGet req "params" (.obj []) = .obj p)
    (hlk : lookupTool tools (dGet p "name" (.str "")) = some tool)
    (hok : tool.handler (dGet p "arguments" (.obj [])) = .ok v) :
    handle_jsonrpc cfg tools (.obj req) =
      [.obj [("jsonrpc", dGet req "jsonrpc" (.str "2.0")),
             ("id", dGet req "id" .null),
             ("result", v)]] := by
  rcases hm with hm | hm <;>
    simp [handle_jsonrpc, hm, hp, hlk, hok, JSON.eqStr]

/-- An example tool handler that returns its arguments unchanged. -/
def echoTool : ToolEntry :=
  ⟨"echoes its arguments", .obj [], fun a => .ok a⟩

/-- Witness for C3: calling a registered echo tool returns the arguments as
the `result`. -/
theorem tools_call_result_is_handler_value_witness :
    handle_jsonrpc ⟨defaultCapabilities, defaultServerInfo⟩ [("echo", echoTool)]
      (.obj [("method", .str "tools/call"), ("id", .num 1),
             ("params", .obj [("name", .str "echo"),
                              ("arguments", .obj [("x", .num 2)])])]) =
      [.obj [("jsonrpc", .str "2.0"), ("id", .num 1),
             ("result", .obj [("x", .num 2)])]] :=
  tools_call_result_is_handler_value _ _ _ _ _ _ (Or.inl rfl) rfl rfl rfl

/-- C4: a `tools/call` (or `tools/run`) request naming a tool that is not in
the registry produces exactly one error frame with code `-32601` and message
`"Tool not found: <name>"`. -/
theorem tools_call_unknown_tool (cfg : ServerCfg) (tools : ToolRegistry)
    (req p : List (String × JSON)) (n : String)
    (hm : dGet req "method" (.str "") = .str "tools/call" ∨
          dGet req "method" (.str "") = .str "tools/run")
    (hp : dGet req "params" (.obj []) = .obj p)
    (hn : dGet p "name" (.str "") = .str n)
    (hlk : List.lookup n tools = none) :
    handle_jsonrpc cfg tools (.obj req) =
      [.obj [("jsonrpc", dGet req "jsonrpc" (.str "2.0")),
             ("id", dGet req "id" .null),
             ("error", .obj [("code", .num (-32601)),
                             ("message", .str ("Tool not found: " ++ n))])]] := by
  rcases hm with hm | hm <;>
    simp [handle_jsonrpc, hm, hp, hn, hlk, JSON.eqStr, lookupTool, pyStr]

/-- Witness for C4: calling an unregistered tool name. -/
theorem tools_call_unknown_tool_witness :
    handle_jsonrpc ⟨defaultCapabilities, defaultServerInfo⟩ []
      (.obj [("method", .str "tools/run"), ("id", .num 7),
             ("params", .obj [("name", .str "nope")])]) =
      [.obj [("jsonrpc", .str "2.0"), ("id", .num 7),
             ("error", .obj [("code", .num (-32601)),
                             ("message", .str "Tool not found: nope")])]] :=
  tools_call_unknown_tool _ _ _ _ "nope" (Or.inr rfl) rfl rfl rfl

/-- C5: a `tools/call` (or `tools/run`) request whose registered handler
raises (modelled as `Except.error e`) produces exactly one error frame with
code `-32603` and message `"Tool execution failed: <details>"`; the
exception is absorbed at the dispatch boundary — the dispatcher's only
output is this frame. -/
theorem tools_call_handler_failure (cfg : ServerCfg) (tools : ToolRegistry)
    (req p : List (String × JSON)) (tool : ToolEntry) (e : String)
    (hm : dGet req "method" (.str "") = .str "tools/call" ∨
          dGet req "method" (.str "") = .str "tools/run")
    (hp : dGet req "params" (.obj []) = .obj p)
    (hlk : lookupTool tools (dGet p "name" (.str "")) = some tool)
    (herr : tool.handler (dGet p "arguments" (.obj [])) = .error e) :
    handle_jsonrpc cfg tools (.obj req) =
      [.obj [("jsonrpc", dGet req "jsonrpc" (.str "2.0")),
             ("id", dGet req "id" .null),
             ("error", .obj [("code", .num (-32603)),
                             ("message", .str ("Tool execution failed: " ++ e))])]] := by
  rcases hm with hm | hm <;>
    simp [handle_jsonrpc, hm, hp, hlk, herr, JSON.eqStr]

/-- An example tool handler that always raises. -/
def failTool : ToolEntry :=
  ⟨"always fails", .obj [], fun _ => .error "boom"⟩

/-- Witness for C5: calling a tool whose handler raises `boom`. -/
theorem tools_call_handler_failure_witness :
    handle_jsonrpc ⟨defaultCapabilities, defaultServerInfo⟩ [("bad", failTool)]
      (.obj [("method", .str "tools/call"), ("id", .num 2),
             ("params", .obj [("name", .str "bad")])]) =
      [.obj [("jsonrpc", .str "2.0"), ("id", .num 2),
             ("error", .obj [("code", .num (-32603)),
                             ("message", .str "Tool execution failed: boom")])]] :=
  tools_call_handler_failure _ _ _ _ _ "boom" (Or.inl rfl) rfl rfl rfl

/-- C6: an `initialize` request's response echoes `params.protocolVersion`
when that parameter is present, and carries `"2024-11-05"` when it is
absent.  (The dispatcher behaves this way with or without an `id`.) -/
theorem initialize_echoes_protocol_version (cfg : ServerCfg)
    (tools : ToolRegistry) (req p : List (String × JSON))
    (hm : dGet req "method" (.str "") = .str "initialize")
    (hp : dGet req "params" (.obj []) = .obj p) :
    (∀ pv, p.lookup "protocolVersion" = some pv →
      handle_jsonrpc cfg tools (.obj req) =
        [.obj [("jsonrpc", dGet req "jsonrpc" (.str "2.0")),
               ("id", dGet req "id" .null),
               ("result", .obj [("protocolVersion", pv),
                                ("capabilities", cfg.capabilities),
                                ("serverInfo", cfg.server_info)])]]) ∧
    (p.lookup "protocolVersion" = none →
      handle_jsonrpc cfg tools (.obj req) =
        [.obj [("jsonrpc", dGet req "jsonrpc" (.str "2.0")),
               ("id", dGet req "id" .null),
               ("result", .obj [("protocolVersion", .str "2024-11-05"),
                                ("capabilities", cfg.capabilities),
                                ("serverInfo", cfg.server_info)])]]) := by
  constructor
  · intro pv hpv
    have hd : dGet p "protocolVersion" (.str "2024-11-05") = pv := by
      simp [dGet, hpv]
    simp [handle_jsonrpc, hm, hp, hd, JSON.eqStr]
  · intro hnone
    have hd : dGet p "protocolVersion" (.str "2024-11-05") = .str "2024-11-05" := by
      simp [dGet, hnone]
    simp [handle_jsonrpc, hm, hp, hd, JSON.eqStr]

/-- Witness for C6: both the echoed and the defaulted protocol version. -/
theorem initialize_echoes_protocol_version_witness :
    handle_jsonrpc ⟨defaultCapabilities, defaultServerInfo⟩ []
      (.obj [("method", .str "initialize"), ("id", .num 0),
             ("params", .obj [("protocolVersion", .str "2025-01-01")])]) =
      [.obj [("jsonrpc", .str "2.0"), ("id", .num 0),
             ("result", .obj [("protocolVersion", .str "2025-01-01"),
                              ("capabilities", defaultCapabilities),
                              ("serverInfo", defaultServerInfo)])]] ∧
    handle_jsonrpc ⟨defaultCapabilities, defaultServerInfo⟩ []
      (.obj [("method", .str "initialize"), ("id", .num 0),
             ("params", .obj [])]) =
      [.obj [("jsonrpc", .str "2.0"), ("id", .num 0),
             ("result", .obj [("protocolVersion", .str "2024-11-05"),
                              ("capabilities", defaultCapabilities),
                              ("serverInfo", defaultServerInfo)])]] :=
  ⟨(initialize_echoes_protocol_version ⟨defaultCapabilities, defaultServerInfo⟩ []
      [("method", .str "initialize"), ("id", .num 0),
       ("params", .obj [("protocolVersion", .str "2025-01-01")])]
      [("protocolVersion", .str "2025-01-01")] rfl rfl).1 (.str "2025-01-01") rfl,
   (initialize_echoes_protocol_version ⟨defaultCapabilities, defaultServerInfo⟩ []
      [("method", .str "initialize"), ("id", .num 0), ("params", .obj [])]
      [] rfl rfl).2 rfl⟩

/-- C7: the SSE frame built by `send_message`: for `"ping"` it is the
comment line `": ping - <timestamp>+00:00"` followed by a blank line;
otherwise it has an `event: <type>` line exactly when the event type is not
`"message"`, then a `data: <payload>` line — where a dict payload is the
`json.dumps` serialization (single-line: it contains no LF and no CR) and
any other payload stands as-is — terminated by a blank line. -/
theorem send_message_frame_format (sess : MCPSession) (event_type : String)
    (data : PyData) (now : String) (writeOk : Bool) :
    (event_type = "ping" →
      (sess.send_message event_type data now writeOk).2.2 =
        ": ping - " ++ now ++ "+00:00\r\n\r\n") ∧
    (event_type ≠ "ping" → event_type ≠ "message" →
      (sess.send_message event_type data now writeOk).2.2 =
        "event: " ++ event_type ++ "\r\n" ++ "data: " ++ data.interp ++ "\r\n\r\n") ∧
    (event_type ≠ "ping" → event_type = "message" →
      (sess.send_message event_type data now writeOk).2.2 =
        "data: " ++ data.interp ++ "\r\n\r\n") ∧
    (∀ d, (PyData.ofDict d).interp = dumps (.obj d) ∧ lineSafe (dumps (.obj d))) ∧
    (∀ s, (PyData.ofStr s).interp = s) := by
  refine ⟨?_, ?_, ?_, fun d => ⟨rfl, dumps_lineSafe _⟩, fun s => rfl⟩
  · intro h
    cases writeOk <;> simp [MCPSession.send_message, h]
  · intro h1 h2
    cases writeOk <;> simp [MCPSession.send_message, h1, h2]
  · intro h1 h2
    cases writeOk <;> simp [MCPSession.send_message, h1, h2]

/-- Witness for C7: concrete ping, endpoint and message frames. -/
theorem send_message_frame_format_witness :
    ((⟨"s", "a", true⟩ : MCPSession).send_message "ping" .pyNone
        "2024-01-01T00:00:00" true).2.2
      = ": ping - 2024-01-01T00:00:00+00:00\r\n\r\n" ∧
    ((⟨"s", "a", true⟩ : MCPSession).send_message "endpoint"
        (.ofStr "/messages/?session_id=x") "t" true).2.2
      = "event: endpoint\r\ndata: /messages/?session_id=x\r\n\r\n" ∧
    ((⟨"s", "a", true⟩ : MCPSession).send_message "message"
        (.ofDict [("k", .num 1)]) "t" false).2.2
      = "data: \x7b\"k\": 1\x7d\r\n\r\n" :=
  ⟨(send_message_frame_format ⟨"s", "a", true⟩ "ping" .pyNone
      "2024-01-01T00:00:00" true).1 rfl,
   (send_message_frame_format ⟨"s", "a", true⟩ "endpoint"
      (.ofStr "/messages/?session_id=x") "t" true).2.1 (by decide) (by decide),
   (send_message_frame_format ⟨"s", "a", true⟩ "message"
      (.ofDict [("k", .num 1)]) "t" false).2.2.1 (by decide) rfl⟩

/-- C8: request parsing degrades gracefully (and, being a total function
over decoded text, never raises): a request line with fewer than two spaces
cannot unpack into METHOD, PATH, VERSION and is replaced by the sentinel
triple `("UNKNOWN", "/", "HTTP/1.1")`; a non-empty header line without a
colon is skipped while the remaining lines are still parsed; a header line
with a colon is stored with its name stripped and case-folded to lowercase
and its value stripped. -/
theorem http_request_parsing_degrades_gracefully :
    (∀ line : String, line.data.count (Char.ofNat 32) < 2 →
      parseRequestLine line = ("UNKNOWN", "/", "HTTP/1.1")) ∧
    (∀ (acc : List (String × String)) (l : String) (ls : List String),
      l ≠ "" → Char.ofNat 58 ∉ l.data →
      parseHeadersAux acc (l :: ls) = parseHeadersAux acc ls) ∧
    (∀ (acc : List (String × String)) (l : String) (ls : List String)
       (k v : String),
      l ≠ "" → splitFirstColon l = some (k, v) →
      parseHeadersAux acc (l :: ls) =
        parseHeadersAux (dictInsert acc (pyLower (pyStrip k)) (pyStrip v)) ls) := by
  refine ⟨parseRequestLine_sentinel, ?_, ?_⟩
  · intro acc l ls hne hnc
    rw [parseHeadersAux, if_neg hne, splitFirstColon_none l hnc]
  · intro acc l ls k v hne hsp
    rw [parseHeadersAux, if_neg hne, hsp]

/-- Witness for C8: a garbage request line, a colon-less header line, and a
well-formed header line. -/
theorem http_request_parsing_degrades_gracefully_witness :
    parseRequestLine "GARBAGE" = ("UNKNOWN", "/", "HTTP/1.1") ∧
    parseHeadersAux [] ["badline", "Host: x"] = parseHeadersAux [] ["Host: x"] ∧
    parseHeadersAux [] ["Host: x"] = parseHeadersAux (dictInsert [] "host" "x") [] :=
  ⟨http_request_parsing_degrades_gracefully.1 "GARBAGE" (by decide),
   http_request_parsing_degrades_gracefully.2.1 [] "badline" ["Host: x"]
     (by decide) (by decide),
   http_request_parsing_degrades_gracefully.2.2 [] "Host: x" [] "Host" " x"
     (by decide) rfl⟩

end EasyMCP
